import Mathlib

/-!
Verification of the server boot module (`server.py`) of the
Office-of-International-Affair backend.

The module is declarative: it reads environment variables, loads a local
`.env` file unless running on the hosting platform, configures the
Cloudinary SDK, constructs the MongoDB client (failing fast when
`MONGO_URL` is missing or empty), registers a lifespan hook, a static
CORS policy and a root endpoint, and, when run as the main module,
derives the listening port from `PORT`.

We embed the module shallowly: the process environment is a map from
variable names to optional string values (mirroring `os.getenv`), the
import-time sequence becomes a function returning `Except` (a raised
`ValueError` is the `error` case), and the lifespan generator becomes a
function from the outcome of `initialize_database()` to the list of
lifecycle events it performs.
-/

namespace Server

/-- A process environment: `os.getenv` semantics, `none` means unset. -/
abbrev Env : Type := String → Option String

/-- Override one variable of an environment (`none` unsets it). -/
def Env.set (env : Env) (k : String) (v : Option String) : Env :=
  fun k' => if k' = k then v else env k'

/-- Python truthiness of an `os.getenv` result: `None` and the empty
string are falsy, every non-empty string is truthy. -/
def truthy : Option String → Bool
  | none => false
  | some s => !(s = "")

/-- Lines 25-26 of `server.py`: the local `.env` file is loaded exactly
when `os.getenv("RENDER") is None`. -/
def loadsDotenv (env : Env) : Bool :=
  (env ("RENDER")).isNone

/-- The keyword arguments passed to `cloudinary.config` (lines 38-43). -/
structure CloudinaryConfig where
  cloud_name : Option String
  api_key : Option String
  api_secret : Option String
  secure : Bool
  deriving DecidableEq, Repr

/-- Lines 38-43 of `server.py`: `cloudinary.config` is called with the
three credential variables read straight from the environment (absent
values are passed as `None`) and `secure=True`. -/
def cloudinaryConfig (env : Env) : CloudinaryConfig :=
  { cloud_name := env ("CLOUDINARY_CLOUD_NAME")
  , api_key := env ("CLOUDINARY_API_KEY")
  , api_secret := env ("CLOUDINARY_API_SECRET")
  , secure := true }

/-- The constructed `AsyncIOMotorClient` handle (line 53): it records the
connection URL it was built from. -/
structure MotorClient where
  url : String
  deriving DecidableEq, Repr

/-- The module-level state built by a successful import of `server.py`:
whether `.env` was loaded, the Cloudinary configuration, the Mongo URL,
the database name, and the constructed client. -/
structure ModuleState where
  dotenvLoaded : Bool
  cloudinary : CloudinaryConfig
  mongo_url : String
  db_name : String
  client : MotorClient
  deriving DecidableEq, Repr

/-- The message of the `ValueError` raised on line 50. -/
def mongoUrlError : String := "❌ MONGO_URL not found in environment variables."

/-- The import-time sequence of `server.py` (lines 22-54): load `.env`
when not on Render, configure Cloudinary, then read `MONGO_URL`; if it is
falsy (absent or empty) raise `ValueError` before the client, the app or
the server exist, otherwise construct the client against it with
`DB_NAME` defaulting to `"medicapsoia"`. -/
def importModule (env : Env) : Except String ModuleState :=
  let dotenvLoaded := loadsDotenv env
  let cloudinary := cloudinaryConfig env
  let mongo_url := env ("MONGO_URL")
  if truthy mongo_url then
    let url := mongo_url.getD ("")
    Except.ok
      { dotenvLoaded := dotenvLoaded
      , cloudinary := cloudinary
      , mongo_url := url
      , db_name := (env ("DB_NAME")).getD ("medicapsoia")
      , client := { url := url } }
  else
    Except.error mongoUrlError

/-- The observable lifecycle events of the `lifespan` generator
(lines 57-71). -/
inductive LifeEvent where
  | callInitDb
  | logStarted
  | yieldControl
  | logInitError (msg : String)
  | closeClient
  | logClosed
  deriving DecidableEq, Repr

/-- The outcome of `await initialize_database()`: success, or a raised
exception carrying its message. -/
abbrev InitOutcome : Type := Except String Unit

/-- The `lifespan` generator (lines 57-71) as the event trace of one full
run (startup through shutdown), as a function of the outcome of
`initialize_database()`. On success it logs the start banner and yields;
on an exception it catches it in the `except` branch, logs the error and
still yields; the `finally` branch then closes the client and logs in
either case. Being a total function into traces, no exception from
`initialize_database` ever propagates out. -/
def lifespan (init : InitOutcome) : List LifeEvent :=
  match init with
  | Except.ok _ =>
      [LifeEvent.callInitDb, LifeEvent.logStarted, LifeEvent.yieldControl,
       LifeEvent.closeClient, LifeEvent.logClosed]
  | Except.error e =>
      [LifeEvent.callInitDb, LifeEvent.logInitError e, LifeEvent.yieldControl,
       LifeEvent.closeClient, LifeEvent.logClosed]

/-- An HTTP response of the root endpoint: status code and JSON body as a
key/value list. -/
structure Response where
  status : Nat
  body : List (String × String)
  deriving DecidableEq, Repr

/-- The `GET /api/` handler `root` (lines 101-103): a parameterless
coroutine returning a fixed dict, which FastAPI serves with status 200.
We pass it the module state to express that it ignores all state. -/
def root (_st : ModuleState) : Response :=
  { status := 200
  , body := [("message", "Student Exchange Programs API - Medi-Caps University")] }

/-- The keyword arguments passed to `app.add_middleware(CORSMiddleware, ...)`
(lines 82-95). -/
structure CORSConfig where
  allow_credentials : Bool
  allow_origins : List String
  allow_methods : List String
  allow_headers : List String
  deriving DecidableEq, Repr

/-- The five named origins of the allow-list (lines 86-90). -/
def namedOrigins : List String :=
  [ "https://io.medicaps.ac.in"
  , "http://localhost:3000"
  , "http://127.0.0.1:3000"
  , "http://localhost:3001"
  , "http://127.0.0.1:3001" ]

/-- Lines 82-95 of `server.py`: the static CORS configuration. It is a
constant of the module — no function of the request origin or of the
environment appears in its construction. -/
def corsConfig : CORSConfig :=
  { allow_credentials := true
  , allow_origins :=
      [ "https://io.medicaps.ac.in"
      , "http://localhost:3000"
      , "http://127.0.0.1:3000"
      , "http://localhost:3001"
      , "http://127.0.0.1:3001"
      , "*" ]
  , allow_methods := ["GET", "POST", "PUT", "DELETE", "OPTIONS"]
  , allow_headers := ["*"] }

/-- The origin-allowed predicate the CORS middleware derives from its
configuration: a wildcard entry in `allow_origins` admits every origin,
otherwise an origin is admitted exactly when it is listed (the spec's
"static allow-list of origins plus a wildcard fallback"). -/
def isAllowedOrigin (cfg : CORSConfig) (origin : String) : Bool :=
  cfg.allow_origins.contains ("*") || cfg.allow_origins.contains origin

/-- Decimal value of a character when it is a digit. -/
def digitVal (c : Char) : Option Nat :=
  if c.isDigit then some (c.toNat - 48) else none

/-- Value of a non-empty run of decimal digits; `none` on the empty run
or on any non-digit. -/
def parseDigits : List Char → Option Nat
  | [] => none
  | cs =>
    cs.foldl
      (fun acc c =>
        match acc, digitVal c with
        | some n, some d => some (10 * n + d)
        | _, _ => none)
      (some 0)

/-- Python `int()` applied to a string (line 110): surrounding whitespace
is ignored, one optional `+` or `-` sign precedes a non-empty run of
decimal digits, and anything else fails with `ValueError` (`none`);
Python's underscore digit grouping is omitted. -/
def pyInt (s : String) : Option Int :=
  let cs := (s.data.dropWhile Char.isWhitespace).reverse
  let cs := (cs.dropWhile Char.isWhitespace).reverse
  match cs with
  | [] => none
  | c :: rest =>
    if c = '+' then (parseDigits rest).map Int.ofNat
    else if c = '-' then (parseDigits rest).map (fun n => -(Int.ofNat n))
    else (parseDigits cs).map Int.ofNat

/-- Line 110 of `server.py` (the `__main__` block): the listening port is
`int(os.getenv("PORT", 8000))` — the parsed value of `PORT` when it is
set, and the integer default 8000 when it is unset; `none` is the
`ValueError` raised when a set `PORT` is not a valid integer literal. -/
def serverPort (env : Env) : Option Int :=
  match env ("PORT") with
  | none => some 8000
  | some s => pyInt s

/-- The empty environment: every variable unset. -/
def envEmpty : Env := fun _ => none

/-- An environment setting only `MONGO_URL`, to a non-empty URL. -/
def envMongoOnly : Env :=
  Env.set envEmpty ("MONGO_URL") (some ("mongodb://localhost:27017"))

/-- An environment in which `RENDER` is present but empty. -/
def envRenderEmpty : Env :=
  Env.set envEmpty ("RENDER") (some (""))

/-- An environment setting only `PORT`. -/
def envPort : Env :=
  Env.set envEmpty ("PORT") (some ("10000"))

/-- C1: if `MONGO_URL` is absent, import raises the configuration
`ValueError` (so no module state — client, app or server — is ever
built); if it is present and non-empty, the check passes and the module
state, including the constructed database client, is returned. -/
theorem mongo_url_fail_fast (env : Env) :
    (env ("MONGO_URL") = none → importModule env = Except.error mongoUrlError) ∧
    (∀ s, env ("MONGO_URL") = some s → s ≠ "" →
      importModule env = Except.ok
        { dotenvLoaded := loadsDotenv env
        , cloudinary := cloudinaryConfig env
        , mongo_url := s
        , db_name := (env ("DB_NAME")).getD ("medicapsoia")
        , client := { url := s } }) := by
  constructor
  · intro h
    simp [importModule, h, truthy]
  · intro s hs hne
    simp [importModule, hs, truthy, hne]

/-- Witness for C1 on concrete environments: the empty environment fails
with the configuration error, and the environment carrying only a
non-empty `MONGO_URL` builds the client. -/
theorem mongo_url_fail_fast_witness :
    importModule envEmpty = Except.error mongoUrlError ∧
    importModule envMongoOnly = Except.ok
      { dotenvLoaded := loadsDotenv envMongoOnly
      , cloudinary := cloudinaryConfig envMongoOnly
      , mongo_url := "mongodb://localhost:27017"
      , db_name := (envMongoOnly ("DB_NAME")).getD ("medicapsoia")
      , client := { url := "mongodb://localhost:27017" } } :=
  ⟨(mongo_url_fail_fast envEmpty).1 rfl,
   (mongo_url_fail_fast envMongoOnly).2 ("mongodb://localhost:27017")
     (by decide) (by decide)⟩

/-- C2: whatever exception `initialize_database` raises, the lifespan
hook catches it, logs the error, and still yields control exactly once —
the full trace is the error-branch trace, the exception appears only as a
logged event (never as a propagated failure, since `lifespan` totally
returns a trace), and `initialize_database` is called exactly once (no
retry). -/
theorem lifespan_swallows_init_failure (e : String) :
    lifespan (Except.error e) =
      [LifeEvent.callInitDb, LifeEvent.logInitError e, LifeEvent.yieldControl,
       LifeEvent.closeClient, LifeEvent.logClosed] ∧
    LifeEvent.yieldControl ∈ lifespan (Except.error e) ∧
    LifeEvent.logInitError e ∈ lifespan (Except.error e) ∧
    (lifespan (Except.error e)).count LifeEvent.callInitDb = 1 := by
  refine ⟨rfl, ?_, ?_, ?_⟩ <;> simp [lifespan]

/-- C3: in every run of the lifespan hook — `initialize_database`
succeeding or raising — `client.close()` happens exactly once, and it
happens at shutdown: after the yield, in the closing suffix of the
trace. -/
theorem client_closed_exactly_once (init : InitOutcome) :
    (lifespan init).count LifeEvent.closeClient = 1 ∧
    ∃ pre, lifespan init =
      pre ++ [LifeEvent.yieldControl, LifeEvent.closeClient, LifeEvent.logClosed] ∧
      LifeEvent.closeClient ∉ pre := by
  cases init with
  | ok u =>
      refine ⟨?_, [LifeEvent.callInitDb, LifeEvent.logStarted], rfl, ?_⟩
      · simp [lifespan]
      · simp
  | error e =>
      refine ⟨?_, [LifeEvent.callInitDb, LifeEvent.logInitError e], rfl, ?_⟩
      · simp [lifespan]
      · simp

/-- C4: the `GET /api/` handler ignores all state and always answers
status 200 with the fixed payload
`message: Student Exchange Programs API - Medi-Caps University`. -/
theorem root_always_fixed_payload (st : ModuleState) :
    root st =
      { status := 200
      , body := [("message", "Student Exchange Programs API - Medi-Caps University")] } :=
  rfl

/-- C5: the CORS middleware configuration is exactly the static record —
the allow-origin list is the five named origins followed by the wildcard,
the method list is `[GET, POST, PUT, DELETE, OPTIONS]`, headers are
wildcard, credentials are allowed — and, being a constant (no parameter),
it involves no origin-dependent computation. -/
theorem cors_config_static :
    corsConfig.allow_origins = namedOrigins ++ ["*"] ∧
    namedOrigins.length = 5 ∧
    corsConfig.allow_methods = ["GET", "POST", "PUT", "DELETE", "OPTIONS"] ∧
    corsConfig.allow_headers = ["*"] ∧
    corsConfig.allow_credentials = true :=
  ⟨rfl, rfl, rfl, rfl, rfl⟩

/-- C6: the `.env` file is loaded iff `RENDER` is unset; whenever
`RENDER` is present — with any value, the empty string included — the
load is skipped. -/
theorem dotenv_iff_render_unset (env : Env) :
    (loadsDotenv env = true ↔ env ("RENDER") = none) ∧
    (∀ v, env ("RENDER") = some v → loadsDotenv env = false) := by
  constructor
  · simp [loadsDotenv, Option.isNone_iff_eq_none]
  · intro v hv
    simp [loadsDotenv, hv]

/-- Witness for C6: with `RENDER` set to the empty string the load is
skipped; in the empty environment it happens. -/
theorem dotenv_iff_render_unset_witness :
    loadsDotenv envRenderEmpty = false ∧ loadsDotenv envEmpty = true :=
  ⟨(dotenv_iff_render_unset envRenderEmpty).2 ("") (by decide),
   (dotenv_iff_render_unset envEmpty).1.mpr rfl⟩

/-- C7: in the `__main__` block, the listening port is the integer value
of `PORT` when set (and parseable as a Python integer literal), and 8000
when `PORT` is unset. -/
theorem port_default_8000 (env : Env) :
    (env ("PORT") = none → serverPort env = some 8000) ∧
    (∀ s n, env ("PORT") = some s → pyInt s = some n → serverPort env = some n) := by
  constructor
  · intro h
    simp [serverPort, h]
  · intro s n hs hn
    simp [serverPort, hs, hn]

/-- Witness for C7: no `PORT` gives 8000; `PORT=10000` gives 10000. -/
theorem port_default_8000_witness :
    serverPort envEmpty = some 8000 ∧ serverPort envPort = some 10000 :=
  ⟨(port_default_8000 envEmpty).1 rfl,
   (port_default_8000 envPort).2 ("10000") 10000 (by decide) (by decide)⟩

/-- C8: the fail-fast check is on falsiness, not absence: with
`MONGO_URL` set to the empty string, import raises the very same
configuration error as with the variable unset. -/
theorem empty_mongo_url_like_absent (env : Env) :
    importModule (Env.set env ("MONGO_URL") (some (""))) = Except.error mongoUrlError ∧
    importModule (Env.set env ("MONGO_URL") none) = Except.error mongoUrlError := by
  constructor <;> simp [importModule, Env.set, truthy]

/-- C9: the Cloudinary credentials are never validated: when all three
are absent, `cloudinary.config` still receives them as `None`, and —
provided the unrelated `MONGO_URL` check passes — import completes
without error. -/
theorem cloudinary_never_validated (env : Env)
    (h1 : env ("CLOUDINARY_CLOUD_NAME") = none)
    (h2 : env ("CLOUDINARY_API_KEY") = none)
    (h3 : env ("CLOUDINARY_API_SECRET") = none) :
    cloudinaryConfig env =
      { cloud_name := none, api_key := none, api_secret := none, secure := true } ∧
    (truthy (env ("MONGO_URL")) = true →
      ∃ st, importModule env = Except.ok st) := by
  constructor
  · simp [cloudinaryConfig, h1, h2, h3]
  · intro hm
    refine ⟨?_, ?_⟩
    · exact
        { dotenvLoaded := loadsDotenv env
        , cloudinary := cloudinaryConfig env
        , mongo_url := (env ("MONGO_URL")).getD ("")
        , db_name := (env ("DB_NAME")).getD ("medicapsoia")
        , client := { url := (env ("MONGO_URL")).getD ("") } }
    · simp [importModule, hm]

/-- Witness for C9: the environment holding only `MONGO_URL` has all
three Cloudinary variables absent, passes them as `None`, and imports
successfully. -/
theorem cloudinary_never_validated_witness :
    cloudinaryConfig envMongoOnly =
      { cloud_name := none, api_key := none, api_secret := none, secure := true } ∧
    (∃ st, importModule envMongoOnly = Except.ok st) :=
  ⟨(cloudinary_never_validated envMongoOnly (by decide) (by decide) (by decide)).1,
   (cloudinary_never_validated envMongoOnly (by decide) (by decide) (by decide)).2
     (by decide)⟩

/-- C10: because the configured allow-origin list contains the wildcard,
the origin-allowed predicate induced by the CORS configuration is true
for every origin string — the effective policy admits all origins. -/
theorem wildcard_admits_every_origin (origin : String) :
    isAllowedOrigin corsConfig origin = true := by
  have h : corsConfig.allow_origins.contains ("*") = true := by decide
  unfold isAllowedOrigin
  rw [h]
  exact Bool.true_or _

end Server
